import Mathlib

/-!
Shallow embedding of the mod-management core of `dayz-server-manager-rs`.

The live reconciliation logic lives in `src/server.rs`
(`ServerManager::install_or_update_mods`, `ServerManager::install_mod`,
`cleanup_mod_directories`, `cleanup_keys_directory`, `get_collection_mods`,
`build_mods_string`, `build_server_mods_string`), with collection fetching in
`src/collection_fetcher.rs`.  `src/mods.rs` contains a near-duplicate
historical revision of the installer (`ModsManager::install_single_mod`,
`create_mod_symlink`, `copy_mod_keys`); the functions of both revisions that
the verified properties mention are embedded here.

Modelling conventions:
* Filesystem paths are abstracted: a workshop package is identified by its
  numeric id, an entry of the server install directory by its file name, and
  a file of the server `keys` directory by its `(name, content)` pair.
* External collaborators (SteamCMD download, page download, HTML parsing,
  removal syscalls) are oracle functions carried in an environment record.
* Symlink creation follows the Windows semantics relied upon by the code:
  creating a link fails exactly when the target name already exists, and
  succeeds even when the pointed-to source is absent (dangling link).
* Console output is not modelled except for the aggregate failure summary,
  which `install_or_update_mods` exposes so that its content can be stated.
-/

/-- Mirrors `ModEntry` from `src/config/mod_entry.rs` as used by `server.rs`:
a workshop id and a display name. -/
structure ModEntry where
  id : Nat
  name : String
  deriving DecidableEq

/-- One file of a workshop package's `keys/` subdirectory: its file name,
its extension (as `Path::extension` returns it, `none` when absent), and
its content. -/
structure KeyFile where
  fname : String
  ext : Option String
  content : String
  deriving DecidableEq

/-- The locally cached state of one workshop package: whether its cache
directory exists (`mod_source_path.exists()`), whether it has a `keys/`
subdirectory, and the files inside that subdirectory. -/
structure WorkshopMod where
  present : Bool
  hasKeysDir : Bool
  keys : List KeyFile
  deriving DecidableEq

/-- The filesystem state the mod-management code reads and writes:
the workshop cache (association list by workshop id), whether
`read_dir` on the server install directory succeeds, the entry names of the
server install directory, whether the server `keys` directory exists, and
the files of the server `keys` directory as `(name, content)` pairs. -/
structure ModState where
  workshop : List (Nat × WorkshopMod)
  serverDirReadable : Bool
  serverEntries : List String
  keysDirExists : Bool
  serverKeys : List (String × String)
  deriving DecidableEq

/-- Environment of `ServerManager`: the `--offline` flag, whether
`steamcmd_manager` is `Some` (`setup_steamcmd` ran), the outcome of
`SteamCmdManager::download_or_update_mod` for each workshop id (on success
the `Bool` tells whether the cache path exists afterwards), and the outcome
of the ignored `fs::remove_dir_all` / `fs::remove_file` calls of cleanup. -/
structure Env where
  offline : Bool
  steamcmdReady : Bool
  download : Nat → Except String Bool
  removeDirOk : String → Bool
  removeFileOk : String → Bool

/-- Rust's `Vec::join(sep)`: the empty list gives `""`, otherwise the
elements separated by `sep`. -/
def joinSep (sep : String) : List String → String
  | [] => ""
  | s :: rest => rest.foldl (fun acc x => acc ++ sep ++ x) s

/-- Does `pat` occur at the head of `hay`? (character-list level) -/
def charsStartWith : List Char → List Char → Bool
  | [], _ => true
  | _ :: _, [] => false
  | p :: ps, h :: hs => p == h && charsStartWith ps hs

/-- Does `pat` occur anywhere inside `hay`? (character-list level) -/
def charsContain (pat : List Char) : List Char → Bool
  | [] => charsStartWith pat []
  | h :: hs => charsStartWith pat (h :: hs) || charsContain pat hs

/-- Rust's `str::contains(pat)`: substring containment. -/
def strContains (s pat : String) : Bool :=
  charsContain pat.data s.data

/-- Rust's `str::starts_with(pat)`. -/
def strStartsWith (s pat : String) : Bool :=
  charsStartWith pat.data s.data

/-- Rust's `str::to_lowercase()` (per-character lowering suffices for the
ASCII names compared by the code). -/
def strToLower (s : String) : String :=
  ⟨s.data.map Char.toLower⟩

/-- Rust's `str::trim()`: strip whitespace from both ends. -/
def strTrim (s : String) : String :=
  ⟨((s.data.dropWhile Char.isWhitespace).reverse.dropWhile Char.isWhitespace).reverse⟩

/-- Look up a workshop id in the cache; an id that is not cached behaves as
an absent directory with no keys. -/
def workshopLookup (st : ModState) (id : Nat) : WorkshopMod :=
  match st.workshop.find? (fun p => p.1 == id) with
  | some p => p.2
  | none => { present := false, hasKeysDir := false, keys := [] }

/-- After `download_or_update_mod` reports success for `id`, the cache
path's existence is whatever the filesystem now holds (oracle `b`). -/
def setPresent (st : ModState) (id : Nat) (b : Bool) : ModState :=
  { st with workshop :=
      st.workshop.map (fun p => if p.1 == id then (p.1, { p.2 with present := b }) else p) }

/-- Error message of `install_mod` when `symlink_dir` fails
(paths abstracted to the workshop id and the alias name). -/
def symlinkErrMsg (id : Nat) (name : String) : String :=
  "Failed to create a directory symlink from " ++ toString id ++ " to @" ++ name ++ "."

/-- Key-mirroring loop of `install_mod` (src/server.rs lines 299-334): for each
entry of the package's `keys/` directory, in order, process only files whose
extension lowercases to `"bikey"`; a target name that already exists in the
server keys directory is skipped, otherwise the key is linked (its content
mirrored). -/
def processKeys (serverKeys : List (String × String)) : List KeyFile → List (String × String)
  | [] => serverKeys
  | kf :: rest =>
    match kf.ext with
    | some e =>
      if strToLower e == "bikey" then
        if serverKeys.any (fun p => p.1 == kf.fname) then
          processKeys serverKeys rest
        else
          processKeys ((kf.fname, kf.content) :: serverKeys) rest
      else
        processKeys serverKeys rest
    | none => processKeys serverKeys rest

/-- Alias and key steps of `install_mod` (src/server.rs lines 282-340): create
the `"@" + name` directory symlink (fails iff an entry of that name already
exists), then, when the package has a `keys/` subdirectory, mirror its
`.bikey` files into the server keys directory. -/
def installPhase (st : ModState) (id : Nat) (name : String) : Except String ModState :=
  let target := "@" ++ name
  if target ∈ st.serverEntries then
    Except.error (symlinkErrMsg id name)
  else
    let st1 := { st with serverEntries := target :: st.serverEntries }
    let wm := workshopLookup st1 id
    if wm.hasKeysDir then
      Except.ok { st1 with serverKeys := processKeys st1.serverKeys wm.keys }
    else
      Except.ok st1

/-- Embedding of `ServerManager::install_mod` (src/server.rs lines 243-341): check that
SteamCMD was set up; in offline mode require the cache path to exist (no
download call), otherwise call the download collaborator and propagate its
error; then perform the alias and key steps. -/
def install_mod (env : Env) (st : ModState) (id : Nat) (name : String) :
    Except String ModState :=
  if !env.steamcmdReady then
    Except.error "SteamCMD has not been setup yet."
  else if env.offline then
    if (workshopLookup st id).present then
      installPhase st id name
    else
      Except.error ("Mod " ++ toString id ++
        " not found locally. Run without --offline to download it first.")
  else
    match env.download id with
    | Except.error e => Except.error e
    | Except.ok b => installPhase (setPresent st id b) id name

/-- Embedding of `ServerManager::cleanup_mod_directories` (src/server.rs lines 182-194):
when the install directory is readable, attempt `remove_dir_all` on every
entry whose name starts with `"@"`, ignoring failures; entries whose removal
failed remain. -/
def cleanup_mod_directories (env : Env) (st : ModState) : ModState :=
  if st.serverDirReadable then
    { st with serverEntries :=
        st.serverEntries.filter (fun n => !(strStartsWith n "@") || !(env.removeDirOk n)) }
  else
    st

/-- Embedding of `ServerManager::cleanup_keys_directory` (src/server.rs lines 197-213):
when the keys directory exists, attempt `remove_file` on every entry whose
lowercased name is not `"dayz.bikey"`, ignoring failures. -/
def cleanup_keys_directory (env : Env) (st : ModState) : ModState :=
  if st.keysDirExists then
    { st with serverKeys :=
        st.serverKeys.filter (fun p => strToLower p.1 == "dayz.bikey" || !(env.removeFileOk p.1)) }
  else
    st

/-- Embedding of `ServerManager::uninstall_prev_mod_installations` (src/server.rs lines
169-179): clean the `@` aliases, then the keys directory; total, no error
is ever returned. -/
def uninstall_prev_mod_installations (env : Env) (st : ModState) : ModState :=
  cleanup_keys_directory env (cleanup_mod_directories env st)

/-- The per-mod installation loop of `install_or_update_mods`
(src/server.rs lines 105-118): install each entry in order; a failure is
recorded by name and the loop continues.  Returns the final state, the
entries for which `install_mod` was invoked (in invocation order), and the
names of the failed entries (in attempt order). -/
def installLoop (env : Env) : List ModEntry → ModState → ModState × List ModEntry × List String
  | [], st => (st, [], [])
  | m :: rest, st =>
    match install_mod env st m.id m.name with
    | Except.ok st' =>
      let r := installLoop env rest st'
      (r.1, m :: r.2.1, r.2.2)
    | Except.error _ =>
      let r := installLoop env rest st
      (r.1, m :: r.2.1, m.name :: r.2.2)

/-- The aggregate error returned by `install_or_update_mods` when any mod
failed (src/server.rs line 127). -/
def aggregateErrMsg : String :=
  "Some mods failed to install. Check SteamCMD output above for details."

/-- The aggregate failure summary printed by `install_or_update_mods`
(src/server.rs lines 124-126). -/
def failureSummaryMsg (failed : List String) : String :=
  "Failed to install " ++ toString failed.length ++ " mod(s): " ++ joinSep ", " failed

/-- Result of one reconciliation run: final filesystem state, the entries
`install_mod` was invoked on (in order), the failed names (in attempt
order), the printed aggregate failure summary (when any mod failed), and
the value returned to the caller. -/
structure ReconcileResult where
  finalState : ModState
  attempted : List ModEntry
  failed : List String
  summaryFailure : Option String
  result : Except String Unit

/-- Embedding of `ServerManager::install_or_update_mods` (src/server.rs lines 90-131):
clean previous installations, short-circuit success when both lists are
empty, install every individual-list entry then every collection-list entry
(continuing past failures), and report: success when nothing failed,
otherwise print a summary naming the failed mods and return a single
generic aggregate error. -/
def install_or_update_mods (env : Env) (st : ModState)
    (individual collection : List ModEntry) : ReconcileResult :=
  let st1 := uninstall_prev_mod_installations env st
  if individual.isEmpty && collection.isEmpty then
    { finalState := st1, attempted := [], failed := [],
      summaryFailure := none, result := Except.ok () }
  else
    let r1 := installLoop env individual st1
    let r2 := installLoop env collection r1.1
    let failed := r1.2.2 ++ r2.2.2
    if failed.isEmpty then
      { finalState := r2.1, attempted := r1.2.1 ++ r2.2.1, failed := [],
        summaryFailure := none, result := Except.ok () }
    else
      { finalState := r2.1, attempted := r1.2.1 ++ r2.2.1, failed := failed,
        summaryFailure := some (failureSummaryMsg failed),
        result := Except.error aggregateErrMsg }

/-- Embedding of `ServerManager::get_collection_mods` (src/server.rs lines 221-238),
with the fetch collaborator as an oracle: no URL or a blank URL gives the
empty list; a fetch failure is swallowed and gives the empty list. -/
def get_collection_mods (urlOpt : Option String)
    (fetch : String → Except String (List ModEntry)) : List ModEntry :=
  match urlOpt with
  | none => []
  | some url =>
    if (strTrim url).data.isEmpty then
      []
    else
      match fetch url with
      | Except.ok mods => mods
      | Except.error _ => []

/-- Embedding of `ServerManager::build_mods_string` (src/server.rs lines 354-364),
parameterised by the collection mod list it reads: `None` when empty,
otherwise the `"@" + name` tokens joined by `";"`. -/
def build_mods_string (collection_mods : List ModEntry) : Option String :=
  if collection_mods.isEmpty then
    none
  else
    some (joinSep ";" (collection_mods.map (fun m => "@" ++ m.name)))

/-- Embedding of `ServerManager::build_server_mods_string` (src/server.rs lines 367-377),
parameterised by the individual mod list it reads. -/
def build_server_mods_string (individual_mods : List ModEntry) : Option String :=
  if individual_mods.isEmpty then
    none
  else
    some (joinSep ";" (individual_mods.map (fun m => "@" ++ m.name)))

/-- Modelled from the spec (section 4.4): a launch flag is "a semicolon-
joined list of `"@" + name` tokens for the set (if non-empty)"; "empty lists
yield no flag at all".  Written by direct recursion over the names so that
agreement with the source-side builders is a real statement. -/
def launchFlagOfNames : List String → Option String
  | [] => none
  | n :: ns => some (ns.foldl (fun acc m => acc ++ ";" ++ ("@" ++ m)) ("@" ++ n))

/-- Collaborators of `CollectionFetcher::fetch_collection_mods`:
`download_page`, `SteamCollectionParser::is_collection_page` and
`SteamCollectionParser::parse_collection_html`. -/
structure FetchEnv where
  downloadPage : String → Except String String
  isCollectionPage : String → Bool
  parseCollection : String → Except String (List ModEntry)

/-- Embedding of `CollectionFetcher::fetch_collection_mods`
(src/collection_fetcher.rs lines 12-44): reject a URL lacking either of the
substrings `"steamcommunity.com"` and `"filedetails"` before any download;
then download, check the page shape, and parse. -/
def fetch_collection_mods (env : FetchEnv) (collection_url : String) :
    Except String (List ModEntry) :=
  if !(strContains collection_url "steamcommunity.com") ||
      !(strContains collection_url "filedetails") then
    Except.error "Invalid Steam Workshop collection URL"
  else
    match env.downloadPage collection_url with
    | Except.error e => Except.error e
    | Except.ok html =>
      if !(env.isCollectionPage html) then
        Except.error "URL does not appear to be a Steam Workshop collection"
      else
        match env.parseCollection html with
        | Except.error e => Except.error e
        | Except.ok mods => Except.ok mods

/-- Embedding of `ModsManager::create_mod_symlink` (src/mods.rs lines 86-110), historical
revision of the alias step: error when the source is absent; an already
existing target is treated as satisfied (no-op success); otherwise the link
is created. -/
def create_mod_symlink (sourceExists : Bool) (entries : List String)
    (target : String) : Except String (List String) :=
  if !sourceExists then
    Except.error "Source mod directory does not exist"
  else if target ∈ entries then
    Except.ok entries
  else
    Except.ok (target :: entries)

/-- Error message of `ModsManager::install_single_mod` when the workshop
directory is absent (src/mods.rs line 67). -/
def modNotFoundMsg (name : String) (id : Nat) : String :=
  "Mod " ++ name ++ " (" ++ toString id ++ ") not found in workshop directory"

/-- Embedding of `ModsManager::install_single_mod` (src/mods.rs lines 58-83), historical
revision, alias part: verify the workshop directory exists (distinct error
when absent), then create the alias symlink.  (Key copying of this revision
is not modelled; no verified property depends on it.) -/
def install_single_mod (st : ModState) (id : Nat) (name : String) :
    Except String ModState :=
  let wm := workshopLookup st id
  if !wm.present then
    Except.error (modNotFoundMsg name id)
  else
    match create_mod_symlink wm.present st.serverEntries ("@" ++ name) with
    | Except.error e => Except.error e
    | Except.ok entries => Except.ok { st with serverEntries := entries }

/-- Number of files named `k` in the server keys directory. -/
def keyCount (k : String) (sk : List (String × String)) : Nat :=
  (sk.filter (fun p => p.1 == k)).length

/-- Content of the file named `k` in the server keys directory, if any. -/
def keyContent (k : String) (sk : List (String × String)) : Option String :=
  (sk.find? (fun p => p.1 == k)).map Prod.snd

/-- The server keys directory after installing mod `id1` (alias `n1`) and
then mod `id2` (alias `n2`); `none` when either installation failed. -/
def installedKeysAfterTwo (env : Env) (st : ModState) (id1 : Nat) (n1 : String)
    (id2 : Nat) (n2 : String) : Option (List (String × String)) :=
  match install_mod env st id1 n1 with
  | Except.error _ => none
  | Except.ok st1 =>
    match install_mod env st1 id2 n2 with
    | Except.error _ => none
    | Except.ok st2 => some st2.serverKeys

/-- Concrete environment: online, SteamCMD ready, the download of workshop
id 2 fails, every other download succeeds and leaves the path present. -/
def envFail2 : Env :=
  { offline := false, steamcmdReady := true,
    download := fun id => if id == 2 then Except.error "simulated download failure"
                          else Except.ok true,
    removeDirOk := fun _ => true, removeFileOk := fun _ => true }

/-- Concrete cache with packages 1, 2 and 3 present, none shipping keys. -/
def stThree : ModState :=
  { workshop := [(1, ⟨true, false, []⟩), (2, ⟨true, false, []⟩), (3, ⟨true, false, []⟩)],
    serverDirReadable := true, serverEntries := [], keysDirExists := true,
    serverKeys := [] }

/-- Three desired mods; the download of the second one fails. -/
def threeMods : List ModEntry := [⟨1, "A"⟩, ⟨2, "BadMod"⟩, ⟨3, "C"⟩]

/-- Concrete environment: offline, SteamCMD ready, removals succeed. -/
def envOffline : Env :=
  { offline := true, steamcmdReady := true, download := fun _ => Except.ok true,
    removeDirOk := fun _ => true, removeFileOk := fun _ => true }

/-- Concrete cache with package 7 present and no keys directory. -/
def stSeven : ModState :=
  { workshop := [(7, ⟨true, false, []⟩)], serverDirReadable := true,
    serverEntries := [], keysDirExists := true, serverKeys := [] }

/-- State `stSeven` after a first successful `install_mod` of id 7 as `@M`. -/
def stSevenInstalled : ModState :=
  { stSeven with serverEntries := ["@M"] }

/-- Concrete environment: online, SteamCMD ready, every download reports
success but leaves the cache path absent. -/
def envGhostDownload : Env :=
  { offline := false, steamcmdReady := true, download := fun _ => Except.ok false,
    removeDirOk := fun _ => true, removeFileOk := fun _ => true }

/-- Concrete cache with package 5 known but its directory absent. -/
def stGhost : ModState :=
  { workshop := [(5, ⟨false, false, []⟩)], serverDirReadable := true,
    serverEntries := [], keysDirExists := true, serverKeys := [] }

/-- State `stGhost` after `install_mod` of id 5 as `@X` (the alias is created
even though the cache path is absent). -/
def stGhostInstalled : ModState :=
  { stGhost with serverEntries := ["@X"] }

/-- Concrete environment: SteamCMD never set up (the setup error case). -/
def envNotReady : Env :=
  { offline := false, steamcmdReady := false, download := fun _ => Except.ok true,
    removeDirOk := fun _ => true, removeFileOk := fun _ => true }

/-- Two desired mods used to observe the run with SteamCMD not set up. -/
def twoMods : List ModEntry := [⟨1, "A"⟩, ⟨2, "B"⟩]

/-- Concrete cache for the key-mirroring scenario: packages 11 and 12 both
ship a key file named `shared.bikey`, with different contents. -/
def stSharedKeys : ModState :=
  { workshop :=
      [(11, ⟨true, true, [⟨"shared.bikey", some "bikey", "content-one"⟩]⟩),
       (12, ⟨true, true, [⟨"shared.bikey", some "bikey", "content-two"⟩]⟩)],
    serverDirReadable := true, serverEntries := [], keysDirExists := true,
    serverKeys := [] }

/-- Concrete dirty state for the cleanup claims: one stale alias, one plain
server file, a reserved key (odd case) and one stray key. -/
def stDirty : ModState :=
  { workshop := [], serverDirReadable := true,
    serverEntries := ["@Old", "DayZServer_x64.exe"], keysDirExists := true,
    serverKeys := [("DayZ.bikey", "reserved"), ("stray.bikey", "stray")] }

section Helpers

/-- `String.append` at the data level. -/
theorem strData_append (s t : String) : (s ++ t).data = s.data ++ t.data := by
  cases s; cases t; rfl

/-- Prefixing with the activation marker is injective in the name. -/
theorem atPrefixInjective {a b : String} (h : "@" ++ a = "@" ++ b) : a = b := by
  have hd : ("@" ++ a).data = ("@" ++ b).data := by rw [h]
  rw [strData_append, strData_append] at hd
  have hx : a.data = b.data := by simpa using hd
  cases a; cases b
  exact congrArg String.mk (by simpa using hx)

/-- Joining mapped tokens coincides with the spec-side fused recursion. -/
theorem joinSep_map_eq_launchFlag (l : List String) :
    (if l.isEmpty then none else some (joinSep ";" (l.map (fun n => "@" ++ n)))) =
      launchFlagOfNames l := by
  cases l with
  | nil => rfl
  | cons n ns =>
    simp [joinSep, launchFlagOfNames, List.foldl_map]

end Helpers

section C4

/-- C4 (confirmed): for each non-empty list the launch-argument builders
produce exactly the `"@" + name` tokens of the list, in input order, joined
by `";"`; an empty list yields no flag at all (`none`). -/
theorem c4_launch_flag_builders (individual collection : List ModEntry) :
    build_server_mods_string individual =
        launchFlagOfNames (individual.map ModEntry.name) ∧
    build_mods_string collection =
        launchFlagOfNames (collection.map ModEntry.name) ∧
    (build_server_mods_string individual = none ↔ individual = []) ∧
    (build_mods_string collection = none ↔ collection = []) := by
  have h1 : ∀ (l : List ModEntry),
      (if l.isEmpty then none
       else some (joinSep ";" (l.map (fun m => "@" ++ m.name)))) =
        launchFlagOfNames (l.map ModEntry.name) := by
    intro l
    rw [← joinSep_map_eq_launchFlag]
    cases l with
    | nil => rfl
    | cons a t => simp [List.map_map, Function.comp_def]
  refine ⟨by simpa [build_server_mods_string] using h1 individual,
          by simpa [build_mods_string] using h1 collection, ?_, ?_⟩
  · cases individual <;> simp [build_server_mods_string]
  · cases collection <;> simp [build_mods_string]

end C4

section C5

/-- C5 (confirmed): collection-mod resolution never propagates an error:
no configured URL gives the empty list; a whitespace-only URL gives the
empty list without consulting the fetcher (the result is the same for every
fetcher); a fetch failure collapses to the empty list; a successful fetch
returns its list. -/
theorem c5_collection_resolution_no_error :
    (∀ fetch, get_collection_mods none fetch = []) ∧
    (∀ url fetch fetch2, (strTrim url).data.isEmpty = true →
        get_collection_mods (some url) fetch = [] ∧
        get_collection_mods (some url) fetch = get_collection_mods (some url) fetch2) ∧
    (∀ url fetch e, fetch url = Except.error e →
        get_collection_mods (some url) fetch = []) ∧
    (∀ url fetch mods, (strTrim url).data.isEmpty = false →
        fetch url = Except.ok mods →
        get_collection_mods (some url) fetch = mods) := by
  refine ⟨fun fetch => rfl, ?_, ?_, ?_⟩
  · intro url fetch fetch2 h
    constructor <;> simp [get_collection_mods, h]
  · intro url fetch e h
    by_cases hb : (strTrim url).data.isEmpty <;> simp [get_collection_mods, h, hb]
  · intro url fetch mods hb h
    simp [get_collection_mods, h, hb]

/-- Concrete check of `c5_collection_resolution_no_error`: no URL, a
whitespace URL, a failing fetch and a successful fetch, each on explicit
inputs. -/
theorem c5_witness :
    get_collection_mods none (fun _ => Except.ok [⟨1, "A"⟩]) = [] ∧
    get_collection_mods (some "   ") (fun _ => Except.error "boom") = [] ∧
    get_collection_mods (some "https://steamcommunity.com/workshop/filedetails/?id=1")
      (fun _ => Except.error "HTTP error 404: Failed to fetch collection page") = [] ∧
    get_collection_mods (some "https://steamcommunity.com/workshop/filedetails/?id=1")
      (fun _ => Except.ok [⟨1, "A"⟩]) = [⟨1, "A"⟩] := by
  refine ⟨c5_collection_resolution_no_error.1 _,
          (c5_collection_resolution_no_error.2.1 "   " _ (fun _ => Except.ok []) (by decide)).1,
          c5_collection_resolution_no_error.2.2.1 _ _ _ rfl,
          c5_collection_resolution_no_error.2.2.2 _ _ _ (by decide) rfl⟩

end C5

section C10

/-- C10 (confirmed): a URL lacking either of the substrings
`"steamcommunity.com"` and `"filedetails"` is rejected with the invalid-URL
error, and the result is the same for every download/parse collaborator —
no page download happens before the rejection. -/
theorem c10_invalid_url_rejected (url : String) (env env2 : FetchEnv)
    (h : strContains url "steamcommunity.com" = false ∨
         strContains url "filedetails" = false) :
    fetch_collection_mods env url =
        Except.error "Invalid Steam Workshop collection URL" ∧
    fetch_collection_mods env url = fetch_collection_mods env2 url := by
  have hcond : (!(strContains url "steamcommunity.com") ||
      !(strContains url "filedetails")) = true := by
    rcases h with h | h <;> simp [h]
  constructor <;> simp [fetch_collection_mods, hcond]

/-- Concrete check of `c10_invalid_url_rejected`: a syntactically valid
collection URL hosted elsewhere is rejected under any collaborator. -/
theorem c10_witness :
    fetch_collection_mods
        ⟨fun _ => Except.ok "<html></html>", fun _ => true, fun _ => Except.ok [⟨1, "A"⟩]⟩
        "https://example.com/sharedfiles/filedetails/?id=123" =
      Except.error "Invalid Steam Workshop collection URL" :=
  (c10_invalid_url_rejected "https://example.com/sharedfiles/filedetails/?id=123"
    ⟨fun _ => Except.ok "<html></html>", fun _ => true, fun _ => Except.ok [⟨1, "A"⟩]⟩
    ⟨fun _ => Except.error "net down", fun _ => false, fun _ => Except.error "x"⟩
    (Or.inl (by decide))).1

end C10

section C7

/-- C7 (confirmed): in offline mode with the cache path absent, single-mod
installation fails immediately with the distinct not-available-offline error
and its outcome is independent of the download collaborator (no network
call); with the path present, the download step is skipped entirely (again
independent of the collaborator) and installation proceeds with the alias
and key steps. -/
theorem c7_offline_mode (env : Env) (st : ModState) (id : Nat) (name : String)
    (hready : env.steamcmdReady = true) (hoff : env.offline = true) :
    ((workshopLookup st id).present = false →
      install_mod env st id name =
        Except.error ("Mod " ++ toString id ++
          " not found locally. Run without --offline to download it first.") ∧
      ∀ d, install_mod { env with download := d } st id name =
        install_mod env st id name) ∧
    ((workshopLookup st id).present = true →
      install_mod env st id name = installPhase st id name ∧
      ∀ d, install_mod { env with download := d } st id name =
        install_mod env st id name) := by
  constructor
  · intro hp
    constructor
    · simp [install_mod, hready, hoff, hp]
    · intro d
      simp [install_mod, hready, hoff, hp]
  · intro hp
    constructor
    · simp [install_mod, hready, hoff, hp]
    · intro d
      simp [install_mod, hready, hoff, hp]

/-- Concrete check of `c7_offline_mode`: offline with id 9 absent fails
with the not-available-offline error; offline with id 7 present skips the
download and installs the alias. -/
theorem c7_witness :
    install_mod envOffline stSeven 9 "N" =
      Except.error "Mod 9 not found locally. Run without --offline to download it first." ∧
    install_mod envOffline stSeven 7 "M" = installPhase stSeven 7 "M" := by
  constructor
  · have h := (c7_offline_mode envOffline stSeven 9 "N" rfl rfl).1 (by decide)
    simpa using h.1
  · exact ((c7_offline_mode envOffline stSeven 7 "M" rfl rfl).2 (by decide)).1

end C7

section C3

/-- C3 (confirmed): for every starting state and every removal outcome, the
Clear step attempts to remove exactly the `"@"`-prefixed entries of the
server install directory and the non-reserved files of the keys directory
(an entry whose removal succeeds is gone), never removes the reserved
`dayz.bikey` key (case-insensitively), adds nothing, leaves non-`"@"`
entries alone, ignores a missing/unreadable directory, and — being a total
function into `ModState` — never returns an error that aborts the run.  It
takes no mod configuration at all, so the behaviour is the same with zero
configured mods. -/
theorem c3_clear_step (env : Env) (st : ModState) :
    (∀ n, st.serverDirReadable = true → n ∈ st.serverEntries →
        strStartsWith n "@" = true → env.removeDirOk n = true →
        n ∉ (uninstall_prev_mod_installations env st).serverEntries) ∧
    (∀ n, n ∈ st.serverEntries → strStartsWith n "@" = false →
        n ∈ (uninstall_prev_mod_installations env st).serverEntries) ∧
    (∀ k, st.keysDirExists = true → k ∈ st.serverKeys →
        strToLower k.1 ≠ "dayz.bikey" → env.removeFileOk k.1 = true →
        k ∉ (uninstall_prev_mod_installations env st).serverKeys) ∧
    (∀ k, k ∈ st.serverKeys → strToLower k.1 = "dayz.bikey" →
        k ∈ (uninstall_prev_mod_installations env st).serverKeys) ∧
    (∀ n, n ∈ (uninstall_prev_mod_installations env st).serverEntries →
        n ∈ st.serverEntries) ∧
    (∀ k, k ∈ (uninstall_prev_mod_installations env st).serverKeys →
        k ∈ st.serverKeys) ∧
    (st.serverDirReadable = false →
        (uninstall_prev_mod_installations env st).serverEntries = st.serverEntries) ∧
    (st.keysDirExists = false →
        (uninstall_prev_mod_installations env st).serverKeys = st.serverKeys) := by
  refine ⟨?_, ?_, ?_, ?_, ?_, ?_, ?_, ?_⟩
  · intro n hr hm hs hok
    by_cases hk : st.keysDirExists <;>
      simp [uninstall_prev_mod_installations, cleanup_keys_directory,
        cleanup_mod_directories, hr, hk, List.mem_filter, hs, hok]
  · intro n hm hs
    by_cases hr : st.serverDirReadable <;> by_cases hk : st.keysDirExists <;>
      simp [uninstall_prev_mod_installations, cleanup_keys_directory,
        cleanup_mod_directories, hr, hk, List.mem_filter, hs, hm]
  · intro k hk hm hne hok
    by_cases hr : st.serverDirReadable <;>
      simp [uninstall_prev_mod_installations, cleanup_keys_directory,
        cleanup_mod_directories, hr, hk, List.mem_filter, hne, hok]
  · intro k hm hres
    by_cases hr : st.serverDirReadable <;> by_cases hk : st.keysDirExists <;>
      simp [uninstall_prev_mod_installations, cleanup_keys_directory,
        cleanup_mod_directories, hr, hk, List.mem_filter, hres, hm]
  · intro n hm
    by_cases hr : st.serverDirReadable <;> by_cases hk : st.keysDirExists <;>
      simp [uninstall_prev_mod_installations, cleanup_keys_directory,
        cleanup_mod_directories, hr, hk, List.mem_filter] at hm ⊢ <;>
      tauto
  · intro k hm
    by_cases hr : st.serverDirReadable <;> by_cases hk : st.keysDirExists <;>
      simp [uninstall_prev_mod_installations, cleanup_keys_directory,
        cleanup_mod_directories, hr, hk, List.mem_filter] at hm ⊢ <;>
      tauto
  · intro hr
    by_cases hk : st.keysDirExists <;>
      simp [uninstall_prev_mod_installations, cleanup_keys_directory,
        cleanup_mod_directories, hr, hk]
  · intro hk
    by_cases hr : st.serverDirReadable <;>
      simp [uninstall_prev_mod_installations, cleanup_keys_directory,
        cleanup_mod_directories, hr, hk]

/-- Concrete check of `c3_clear_step`: on a dirty state the stale `@Old`
alias and the stray key are removed, while the server executable entry and
the reserved key (here spelled `DayZ.bikey`) survive. -/
theorem c3_witness :
    "@Old" ∉ (uninstall_prev_mod_installations envOffline stDirty).serverEntries ∧
    "DayZServer_x64.exe" ∈ (uninstall_prev_mod_installations envOffline stDirty).serverEntries ∧
    ("stray.bikey", "stray") ∉ (uninstall_prev_mod_installations envOffline stDirty).serverKeys ∧
    ("DayZ.bikey", "reserved") ∈ (uninstall_prev_mod_installations envOffline stDirty).serverKeys :=
  ⟨(c3_clear_step envOffline stDirty).1 "@Old" rfl (by decide) (by decide) rfl,
   (c3_clear_step envOffline stDirty).2.1 "DayZServer_x64.exe" (by decide) (by decide),
   (c3_clear_step envOffline stDirty).2.2.1 ("stray.bikey", "stray") rfl (by decide)
     (by decide) rfl,
   (c3_clear_step envOffline stDirty).2.2.2.1 ("DayZ.bikey", "reserved") (by decide)
     (by decide)⟩

end C3

section InstallHelpers

/-- A name that occurs nowhere in the keys directory filters to nothing. -/
theorem keyFilter_nil_of_any_false {k : String} {sk : List (String × String)}
    (h : sk.any (fun p => p.1 == k) = false) :
    sk.filter (fun p => p.1 == k) = [] := by
  simp only [List.any_eq_false] at h
  rw [List.filter_eq_nil_iff]
  intro a ha
  exact h a ha

/-- Key mirroring never touches a name that already exists in the server
keys directory: neither its multiplicity nor its content changes. -/
theorem processKeys_preserves_existing (k : String) :
    ∀ (l : List KeyFile) (sk : List (String × String)),
      sk.any (fun p => p.1 == k) = true →
      keyCount k (processKeys sk l) = keyCount k sk ∧
      keyContent k (processKeys sk l) = keyContent k sk := by
  intro l
  induction l with
  | nil => intro sk _; exact ⟨rfl, rfl⟩
  | cons kf rest ih =>
    intro sk h
    cases hext : kf.ext with
    | none => simpa [processKeys, hext] using ih sk h
    | some e =>
      by_cases hb : (strToLower e == "bikey") = true
      · by_cases hany : (sk.any (fun p => p.1 == kf.fname)) = true
        · simpa [processKeys, hext, hb, hany] using ih sk h
        · have hne : (kf.fname == k) = false := by
            apply Bool.eq_false_iff.2
            intro hx
            have hfk : kf.fname = k := by simpa using hx
            rw [hfk] at hany
            exact hany h
          have hanyF : (sk.any (fun p => p.1 == kf.fname)) = false :=
            Bool.eq_false_iff.2 hany
          have hsk2 : (((kf.fname, kf.content) :: sk).any (fun p => p.1 == k)) = true := by
            simp [h]
          have hrec := ih ((kf.fname, kf.content) :: sk) hsk2
          have hstep : processKeys sk (kf :: rest) =
              processKeys ((kf.fname, kf.content) :: sk) rest := by
            simp [processKeys, hext, hb, hanyF]
          have hcount : keyCount k ((kf.fname, kf.content) :: sk) = keyCount k sk := by
            simp [keyCount, List.filter_cons, hne]
          have hcontent : keyContent k ((kf.fname, kf.content) :: sk) = keyContent k sk := by
            simp [keyContent, List.find?_cons, hne]
          rw [hstep, hrec.1, hrec.2, hcount, hcontent]
          exact ⟨rfl, rfl⟩
      · have hbF : (strToLower e == "bikey") = false := Bool.eq_false_iff.2 hb
        simpa [processKeys, hext, hbF] using ih sk h

/-- With SteamCMD ready, offline mode and the cache path present,
`install_mod` is exactly the alias + key phase. -/
theorem install_mod_offline_present (env : Env) (st : ModState) (id : Nat)
    (name : String) (hready : env.steamcmdReady = true) (hoff : env.offline = true)
    (hp : (workshopLookup st id).present = true) :
    install_mod env st id name = installPhase st id name := by
  simp [install_mod, hready, hoff, hp]

/-- Evaluation of the alias + key phase when the alias is not yet taken. -/
theorem installPhase_spec (st : ModState) (id : Nat) (name : String)
    (hmem : ("@" ++ name) ∉ st.serverEntries) :
    installPhase st id name =
      (if (workshopLookup st id).hasKeysDir then Except.ok { st with serverEntries := ("@" ++ name) :: st.serverEntries, serverKeys := processKeys st.serverKeys (workshopLookup st id).keys } else Except.ok { st with serverEntries := ("@" ++ name) :: st.serverEntries }) := by
  simp only [installPhase]
  rw [if_neg hmem]
  rfl

end InstallHelpers

section C8

/-- C8 (confirmed): key mirroring is first-writer-wins.  A key name already
present in the server keys directory is skipped — multiplicity and content
are preserved for every sequence of processed key files — and when two mods
each ship a key file of the same name, after installing both exactly one
file of that name exists and its content is the first mod's. -/
theorem c8_first_writer_wins :
    (∀ (l : List KeyFile) (sk : List (String × String)) (k : String),
      sk.any (fun p => p.1 == k) = true →
      keyCount k (processKeys sk l) = keyCount k sk ∧
      keyContent k (processKeys sk l) = keyContent k sk) ∧
    (∀ (env : Env) (st : ModState) (id1 id2 : Nat) (n1 n2 k c1 c2 : String),
      env.steamcmdReady = true → env.offline = true →
      workshopLookup st id1 = ⟨true, true, [⟨k, some "bikey", c1⟩]⟩ →
      workshopLookup st id2 = ⟨true, true, [⟨k, some "bikey", c2⟩]⟩ →
      ("@" ++ n1) ∉ st.serverEntries → ("@" ++ n2) ∉ st.serverEntries →
      n1 ≠ n2 →
      (st.serverKeys.any (fun p => p.1 == k)) = false →
      (installedKeysAfterTwo env st id1 n1 id2 n2).map (keyCount k) = some 1 ∧
      (installedKeysAfterTwo env st id1 n1 id2 n2).map (keyContent k) =
        some (some c1)) := by
  constructor
  · intro l sk k h
    exact processKeys_preserves_existing k l sk h
  · intro env st id1 id2 n1 n2 k c1 c2 hready hoff hw1 hw2 h1 h2 hne hk
    have hbk : (strToLower "bikey" == "bikey") = true := by decide
    have e1 : install_mod env st id1 n1 =
        Except.ok { st with serverEntries := ("@" ++ n1) :: st.serverEntries, serverKeys := (k, c1) :: st.serverKeys } := by
      rw [install_mod_offline_present env st id1 n1 hready hoff (by rw [hw1]),
        installPhase_spec st id1 n1 h1, hw1]
      simp [processKeys, hbk, hk]
    have hn2 : ("@" ++ n2) ∉ ("@" ++ n1) :: st.serverEntries := by
      intro hx
      rcases List.mem_cons.1 hx with hx | hx
      · exact hne (atPrefixInjective hx).symm
      · exact h2 hx
    have hany2 : (((k, c1) :: st.serverKeys).any (fun p => p.1 == k)) = true := by
      simp
    have hlook2 : workshopLookup { st with serverEntries := ("@" ++ n1) :: st.serverEntries, serverKeys := (k, c1) :: st.serverKeys } id2 = workshopLookup st id2 := rfl
    have e2 : install_mod env { st with serverEntries := ("@" ++ n1) :: st.serverEntries, serverKeys := (k, c1) :: st.serverKeys } id2 n2 =
        Except.ok { st with serverEntries := ("@" ++ n2) :: ("@" ++ n1) :: st.serverEntries, serverKeys := (k, c1) :: st.serverKeys } := by
      rw [install_mod_offline_present env _ id2 n2 hready hoff (by rw [hlook2, hw2]),
        installPhase_spec _ id2 n2 hn2, hlook2, hw2]
      simp [processKeys, hbk, hany2]
    have efinal : installedKeysAfterTwo env st id1 n1 id2 n2 =
        some ((k, c1) :: st.serverKeys) := by
      simp [installedKeysAfterTwo, e1, e2]
    rw [efinal]
    constructor
    · simp [keyCount, List.filter_cons, keyFilter_nil_of_any_false hk]
    · simp [keyContent, List.find?_cons]

/-- Concrete check of `c8_first_writer_wins`: mods 11 and 12 both ship
`shared.bikey`; after installing both, one such file exists and it carries
mod 11's content. -/
theorem c8_witness :
    (installedKeysAfterTwo envOffline stSharedKeys 11 "ModOne" 12 "ModTwo").map
        (keyCount "shared.bikey") = some 1 ∧
    (installedKeysAfterTwo envOffline stSharedKeys 11 "ModOne" 12 "ModTwo").map
        (keyContent "shared.bikey") = some (some "content-one") :=
  c8_first_writer_wins.2 envOffline stSharedKeys 11 12 "ModOne" "ModTwo"
    "shared.bikey" "content-one" "content-two" rfl rfl (by decide) (by decide)
    (by decide) (by decide) (by decide) (by decide)

end C8

section LoopHelpers

/-- Every entry of the list is attempted, in order, regardless of failures. -/
theorem installLoop_attempted (env : Env) :
    ∀ (l : List ModEntry) (st : ModState), (installLoop env l st).2.1 = l := by
  intro l
  induction l with
  | nil => intro st; rfl
  | cons m rest ih =>
    intro st
    cases h : install_mod env st m.id m.name with
    | ok st2 => simp [installLoop, h, ih]
    | error e => simp [installLoop, h, ih]

/-- Every recorded failure is the name of some entry of the list. -/
theorem installLoop_failed_names (env : Env) :
    ∀ (l : List ModEntry) (st : ModState) (n : String),
      n ∈ (installLoop env l st).2.2 → n ∈ l.map ModEntry.name := by
  intro l
  induction l with
  | nil => intro st n h; simp [installLoop] at h
  | cons m rest ih =>
    intro st n h
    cases hi : install_mod env st m.id m.name with
    | ok st2 =>
      rw [installLoop, hi] at h
      simp only [List.map_cons]
      exact List.mem_cons_of_mem _ (ih st2 n h)
    | error e =>
      rw [installLoop, hi] at h
      rcases List.mem_cons.1 h with h | h
      · simp [h]
      · simp only [List.map_cons]
        exact List.mem_cons_of_mem _ (ih st n h)

/-- With SteamCMD not set up, every installation fails with the setup
error: the loop attempts each entry, records every name as failed and
leaves the state untouched. -/
theorem installLoop_notReady (env : Env) (h : env.steamcmdReady = false) :
    ∀ (l : List ModEntry) (st : ModState),
      installLoop env l st = (st, l, l.map ModEntry.name) := by
  intro l
  induction l with
  | nil => intro st; rfl
  | cons m rest ih =>
    intro st
    have hi : install_mod env st m.id m.name =
        Except.error "SteamCMD has not been setup yet." := by
      simp [install_mod, h]
    simp [installLoop, hi, ih]

/-- The reconciler attempts exactly the two configured lists, individual
first, in order. -/
theorem reconcile_attempted (env : Env) (st : ModState) (ind col : List ModEntry) :
    (install_or_update_mods env st ind col).attempted = ind ++ col := by
  unfold install_or_update_mods
  by_cases h0 : (ind.isEmpty && col.isEmpty) = true
  · rcases Bool.and_eq_true_iff.1 h0 with ⟨hi, hc⟩
    rw [List.isEmpty_iff] at hi hc
    subst hi; subst hc
    simp
  · simp only [h0, Bool.false_eq_true, if_false]
    split
    · simp [installLoop_attempted]
    · simp [installLoop_attempted]

/-- The reconciler reports success exactly when no entry failed. -/
theorem reconcile_ok_iff (env : Env) (st : ModState) (ind col : List ModEntry) :
    ((install_or_update_mods env st ind col).result = Except.ok () ↔
      (install_or_update_mods env st ind col).failed = []) := by
  unfold install_or_update_mods
  by_cases h0 : (ind.isEmpty && col.isEmpty) = true
  · simp [h0]
  · simp only [h0, Bool.false_eq_true, if_false]
    split
    · rename_i hf
      simp_all [List.isEmpty_iff]
    · rename_i hf
      simp_all [List.isEmpty_iff]

/-- When some entry failed, the reconciler returns the single generic
aggregate error and prints the summary naming exactly the failed mods. -/
theorem reconcile_failure_report (env : Env) (st : ModState) (ind col : List ModEntry)
    (h : (install_or_update_mods env st ind col).failed ≠ []) :
    (install_or_update_mods env st ind col).result = Except.error aggregateErrMsg ∧
    (install_or_update_mods env st ind col).summaryFailure =
      some (failureSummaryMsg (install_or_update_mods env st ind col).failed) := by
  revert h
  unfold install_or_update_mods
  by_cases h0 : (ind.isEmpty && col.isEmpty) = true
  · intro h
    simp [h0] at h
  · simp only [h0, Bool.false_eq_true, if_false]
    split
    · rename_i hf
      intro h
      simp_all [List.isEmpty_iff]
    · intro h
      simp

/-- Every name the reconciler reports as failed is the name of a
configured entry. -/
theorem reconcile_failed_sub (env : Env) (st : ModState) (ind col : List ModEntry)
    (n : String) (h : n ∈ (install_or_update_mods env st ind col).failed) :
    n ∈ (ind ++ col).map ModEntry.name := by
  revert h
  unfold install_or_update_mods
  by_cases h0 : (ind.isEmpty && col.isEmpty) = true
  · intro h
    simp [h0] at h
  · simp only [h0, Bool.false_eq_true, if_false]
    split
    · intro h
      simp at h
    · intro h
      simp only [List.map_append]
      rcases List.mem_append.1 h with h | h
      · exact List.mem_append_left _ (installLoop_failed_names env ind _ n h)
      · exact List.mem_append_right _ (installLoop_failed_names env col _ n h)

end LoopHelpers

section C1

/-- C1 (corrected): the reconciler is non-short-circuiting — on a run where
the download of mod 2 (`BadMod`) fails, mods 1 and 3 are still attempted and
their aliases `@A` and `@C` are installed, and only `BadMod` is recorded as
failed.  But the single aggregate error returned to the caller is the fixed
message `aggregateErrMsg`, which does not name `BadMod` (nor any failed
mod), refuting the claim that the returned error names every failed mod. -/
theorem c1_counterexample :
    (install_or_update_mods envFail2 stThree threeMods []).failed = ["BadMod"] ∧
    (install_or_update_mods envFail2 stThree threeMods []).result =
      Except.error aggregateErrMsg ∧
    strContains aggregateErrMsg "BadMod" = false ∧
    (install_or_update_mods envFail2 stThree threeMods []).finalState.serverEntries =
      ["@C", "@A"] := by
  refine ⟨by rfl, by rfl, by decide, by rfl⟩

/-- C1 (amended): for every desired mod set the reconciler attempts every
entry — individual list then collection list, in list order — even when
earlier entries fail; it returns success exactly when no entry failed;
otherwise, only after every entry was attempted, it prints an aggregate
failure summary naming every failed mod and only the failed mods in attempt
order, while the error value returned to the caller is a single generic
aggregate message that does not list the failed names. -/
theorem c1_amended (env : Env) (st : ModState) (ind col : List ModEntry) :
    (install_or_update_mods env st ind col).attempted = ind ++ col ∧
    ((install_or_update_mods env st ind col).result = Except.ok () ↔
      (install_or_update_mods env st ind col).failed = []) ∧
    ((install_or_update_mods env st ind col).failed ≠ [] →
      (install_or_update_mods env st ind col).result = Except.error aggregateErrMsg ∧
      (install_or_update_mods env st ind col).summaryFailure =
        some (failureSummaryMsg (install_or_update_mods env st ind col).failed)) ∧
    (∀ n ∈ (install_or_update_mods env st ind col).failed,
      n ∈ (ind ++ col).map ModEntry.name) :=
  ⟨reconcile_attempted env st ind col, reconcile_ok_iff env st ind col,
   reconcile_failure_report env st ind col,
   fun n hn => reconcile_failed_sub env st ind col n hn⟩

/-- Concrete check of `c1_amended` on the three-mod run where `BadMod`'s
download fails. -/
theorem c1_witness :
    (install_or_update_mods envFail2 stThree threeMods []).attempted =
      threeMods ++ [] ∧
    (install_or_update_mods envFail2 stThree threeMods []).result =
      Except.error aggregateErrMsg ∧
    (install_or_update_mods envFail2 stThree threeMods []).summaryFailure =
      some (failureSummaryMsg (install_or_update_mods envFail2 stThree threeMods []).failed) :=
  ⟨(c1_amended envFail2 stThree threeMods []).1,
   ((c1_amended envFail2 stThree threeMods []).2.2.1 (by decide)).1,
   ((c1_amended envFail2 stThree threeMods []).2.2.1 (by decide)).2⟩

end C1

section C9

/-- C9 (corrected): the setup error does not halt the run before any mod is
attempted.  With SteamCMD never set up, the two configured mods are both
attempted, both are recorded as failed, and the failure surfaces only as
the aggregate error — refuting the claim that a setup error aborts the run
before any mod is attempted. -/
theorem c9_counterexample :
    (install_or_update_mods envNotReady stThree twoMods []).attempted = twoMods ∧
    (install_or_update_mods envNotReady stThree twoMods []).failed = ["A", "B"] ∧
    (install_or_update_mods envNotReady stThree twoMods []).result =
      Except.error aggregateErrMsg := by
  refine ⟨by rfl, by rfl, by rfl⟩

/-- C9 (amended): the setup error (download collaborator not ready) is
raised inside single-mod installation and recovered at the mod boundary
like every other error: every configured entry is still attempted, each
fails with the setup error, and the failure is surfaced only through the
aggregate result after all entries were attempted. -/
theorem c9_amended (env : Env) (st : ModState) (ind col : List ModEntry)
    (h : env.steamcmdReady = false) :
    (∀ (st2 : ModState) (id : Nat) (name : String),
      install_mod env st2 id name = Except.error "SteamCMD has not been setup yet.") ∧
    (install_or_update_mods env st ind col).attempted = ind ++ col ∧
    (install_or_update_mods env st ind col).failed = (ind ++ col).map ModEntry.name ∧
    ((ind ++ col) ≠ [] →
      (install_or_update_mods env st ind col).result = Except.error aggregateErrMsg) := by
  have hfail : (install_or_update_mods env st ind col).failed =
      (ind ++ col).map ModEntry.name := by
    unfold install_or_update_mods
    by_cases h0 : (ind.isEmpty && col.isEmpty) = true
    · rcases Bool.and_eq_true_iff.1 h0 with ⟨hi, hc⟩
      rw [List.isEmpty_iff] at hi hc
      subst hi; subst hc
      simp
    · simp only [h0, Bool.false_eq_true, if_false]
      rw [installLoop_notReady env h ind, installLoop_notReady env h col]
      split
      · rename_i hf
        simp only [List.map_append]
        simpa using hf.symm
      · simp
  refine ⟨?_, reconcile_attempted env st ind col, hfail, ?_⟩
  · intro st2 id name
    simp [install_mod, h]
  · intro hne
    have hne2 : (install_or_update_mods env st ind col).failed ≠ [] := by
      rw [hfail]
      simpa using hne
    exact (reconcile_failure_report env st ind col hne2).1

/-- Concrete check of `c9_amended`: SteamCMD not set up, two mods
configured. -/
theorem c9_witness :
    install_mod envNotReady stThree 1 "A" =
      Except.error "SteamCMD has not been setup yet." ∧
    (install_or_update_mods envNotReady stThree twoMods []).failed =
      (twoMods ++ []).map ModEntry.name ∧
    (install_or_update_mods envNotReady stThree twoMods []).result =
      Except.error aggregateErrMsg :=
  ⟨(c9_amended envNotReady stThree twoMods [] rfl).1 stThree 1 "A",
   (c9_amended envNotReady stThree twoMods [] rfl).2.2.1,
   (c9_amended envNotReady stThree twoMods [] rfl).2.2.2 (by decide)⟩

end C9

section C2

/-- C2 (corrected, counterexample): two consecutive `install_mod` calls for
the same mod without an intervening Clear do not both succeed — the first
creates the `@M` alias, the second fails at the alias step because
`symlink_dir` errors on the existing target, refuting the claimed
idempotent no-op of install_mod's alias step. -/
theorem c2_counterexample :
    install_mod envOffline stSeven 7 "M" = Except.ok stSevenInstalled ∧
    install_mod envOffline stSevenInstalled 7 "M" =
      Except.error (symlinkErrMsg 7 "M") := by
  refine ⟨by rfl, by rfl⟩

/-- C2 (amended): the treat-as-satisfied no-op on an existing alias exists
only in the historical `ModsManager::create_mod_symlink`, which succeeds
leaving the entries unchanged; the live `ServerManager::install_mod`
returns an error at the alias step whenever the `"@" + name` alias already
exists, so its second consecutive invocation fails. -/
theorem c2_amended :
    (∀ (entries : List String) (target : String), target ∈ entries →
      create_mod_symlink true entries target = Except.ok entries) ∧
    (∀ (env : Env) (st : ModState) (id : Nat) (name : String),
      env.steamcmdReady = true → env.offline = true →
      (workshopLookup st id).present = true →
      ("@" ++ name) ∈ st.serverEntries →
      install_mod env st id name = Except.error (symlinkErrMsg id name)) := by
  constructor
  · intro entries target h
    simp [create_mod_symlink, h]
  · intro env st id name hready hoff hp hmem
    rw [install_mod_offline_present env st id name hready hoff hp]
    simp [installPhase, hmem]

/-- Concrete check of `c2_amended`: the legacy symlink step is a no-op on an
existing `@M` alias, while the live installer errors on it. -/
theorem c2_amended_witness :
    create_mod_symlink true ["@M"] "@M" = Except.ok ["@M"] ∧
    install_mod envOffline stSevenInstalled 7 "M" =
      Except.error (symlinkErrMsg 7 "M") :=
  ⟨c2_amended.1 ["@M"] "@M" (by decide),
   c2_amended.2 envOffline stSevenInstalled 7 "M" rfl rfl (by decide) (by decide)⟩

end C2

section C6

/-- C6 (corrected, counterexample): with a download collaborator that
reports success while leaving the cache path absent, `install_mod` of mod 5
returns success and creates the `@X` activation alias — the cache path is
never verified, refuting the claimed distinct integrity error. -/
theorem c6_counterexample :
    install_mod envGhostDownload stGhost 5 "X" = Except.ok stGhostInstalled ∧
    (workshopLookup stGhostInstalled 5).present = false := by
  refine ⟨by rfl, by rfl⟩

/-- C6 (amended): after a reported-successful download the live
`ServerManager::install_mod` performs no existence verification — even when
the cache path is absent it proceeds to create the activation alias and
succeeds; the distinct absent-directory error exists only in the historical
`ModsManager::install_single_mod`, which checks the workshop directory
before linking (and has no download step). -/
theorem c6_amended :
    (∀ (env : Env) (st : ModState) (id : Nat) (name : String),
      env.steamcmdReady = true → env.offline = false →
      env.download id = Except.ok false →
      ("@" ++ name) ∉ st.serverEntries →
      (workshopLookup (setPresent st id false) id).hasKeysDir = false →
      install_mod env st id name =
        Except.ok { setPresent st id false with serverEntries := ("@" ++ name) :: st.serverEntries }) ∧
    (∀ (st : ModState) (id : Nat) (name : String),
      (workshopLookup st id).present = false →
      install_single_mod st id name = Except.error (modNotFoundMsg name id)) := by
  constructor
  · intro env st id name hready hoff hdl hmem hkd
    have hmem2 : ("@" ++ name) ∉ (setPresent st id false).serverEntries := hmem
    have hstep : install_mod env st id name =
        installPhase (setPresent st id false) id name := by
      simp [install_mod, hready, hoff, hdl]
    rw [hstep, installPhase_spec _ id name hmem2, if_neg (by rw [hkd]; simp)]
    rfl
  · intro st id name hp
    simp [install_single_mod, hp]

/-- Concrete check of `c6_amended`: the ghost download of mod 5 installs the
alias anyway, while the legacy installer fails with its not-found error. -/
theorem c6_amended_witness :
    install_mod envGhostDownload stGhost 5 "X" =
      Except.ok { setPresent stGhost 5 false with serverEntries := ("@" ++ "X") :: stGhost.serverEntries } ∧
    install_single_mod stGhost 5 "X" = Except.error (modNotFoundMsg "X" 5) :=
  ⟨c6_amended.1 envGhostDownload stGhost 5 "X" rfl rfl rfl (by decide) (by decide),
   c6_amended.2 stGhost 5 "X" (by decide)⟩

end C6
